import Mathlib

/-!
Verification development for the ai-chatbot repository: a shallow embedding of
the session store, bounded history read, gateway routes, WebSocket
authentication, and the worker consume loop, with theorems settling the
specification claims about them.

Stream-transport calls (XADD / XDEL / EXPIRE / JSON.SET / JSON.GET /
JSON.ARRAPPEND) are recorded as entries of an effect trace, so frame claims
("no expiry refresh on append") and delivery claims ("entry deleted after
processing") are statements about the trace a function emits.
-/

/-- `src/schema/chat.py` SourceEnum: a message source is exactly `user` or `assistant`. -/
inductive SourceEnum
  | user
  | assistant
deriving DecidableEq, Repr

/-- `src/schema/chat.py` Message: id, free text, timestamp string, source. -/
structure Message where
  id : String
  msg : String
  timestamp : String
  source : SourceEnum
deriving DecidableEq, Repr

/-- `src/schema/chat.py` Chat: session document stored as JSON under the token key. -/
structure Chat where
  token : String
  messages : List Message
  name : String
  session_start : String
deriving DecidableEq, Repr

/-- One store/transport side effect, as issued by the code under verification. -/
inductive RedisOp
  | jsonSet (key : String) (doc : Chat)
  | expire (key : String) (seconds : Nat)
  | jsonGet (key : String)
  | arrAppend (key : String) (messages : List Message)
  | xadd (stream : String) (fields : List (String × String))
  | xdel (stream : String) (entryId : String)
deriving DecidableEq, Repr

def RedisOp.isExpire : RedisOp → Bool
  | .expire _ _ => true
  | _ => false

def RedisOp.isXadd : RedisOp → Bool
  | .xadd _ _ => true
  | _ => false

def RedisOp.isArrAppend : RedisOp → Bool
  | .arrAppend _ _ => true
  | _ => false

def RedisOp.isXdel : RedisOp → Bool
  | .xdel _ _ => true
  | _ => false

/-- Python list slicing `l[s:]` for an integer start `s`: a negative start
counts from the end (clamped at 0), a nonnegative start is clamped at `len(l)`. -/
def pySliceFrom (l : List α) (s : Int) : List α :=
  let n : Int := (l.length : Int)
  let start : Int := if s < 0 then max (n + s) 0 else min s n
  l.drop start.toNat

/-- `worker/src/redis/cache.py` Cache.get_chat_history: JSON.GET the session
document at the root path, then replace `data['messages']` with
`data['messages'][-limit:]`.  Returns the effect trace and the result. -/
def Cache.get_chat_history (store : String → Option Chat) (token : String)
    (limit : Int) : List RedisOp × Option Chat :=
  ([RedisOp.jsonGet token],
   Option.map (fun d => { d with messages := pySliceFrom d.messages (-limit) })
     (store token))

/-- `worker/src/redis/cache.py` Cache.add_messages_to_cache: a single
JSON.ARRAPPEND of the given messages onto `.messages`; nothing else. -/
def Cache.add_messages_to_cache (token : String) (messages : List Message) :
    List RedisOp :=
  [RedisOp.arrAppend token messages]

/-- `server/src/redis/cache.py` Cache.get_chat_history (server variant): plain
JSON.GET of the whole document, returned verbatim. -/
def ServerCache.get_chat_history (store : String → Option Chat) (token : String) :
    List RedisOp × Option Chat :=
  ([RedisOp.jsonGet token], store token)

/-- FastAPI HTTPException detail: either the structured `{loc, msg}` object or a string. -/
inductive Detail
  | obj (loc msg : String)
  | str (s : String)
deriving DecidableEq, Repr

structure HTTPError where
  status_code : Nat
  detail : Detail
deriving DecidableEq, Repr

/-- `server/src/routes/chat.py` token_generator: reject the empty name with a
400, otherwise build the session document with an empty message list, JSON.SET
it under the fresh token, set the key to expire in 3600 seconds, and return the
document.  `freshToken` stands for `str(uuid.uuid4())` and `now` for the
`session_start` default timestamp. -/
def token_generator (name freshToken now : String) :
    Except HTTPError (List RedisOp × Chat) :=
  if name = "" then
    Except.error ⟨400, Detail.obj "name" "Enter a valid name"⟩
  else
    Except.ok ([RedisOp.jsonSet freshToken ⟨freshToken, [], name, now⟩,
                RedisOp.expire freshToken 3600],
               ⟨freshToken, [], name, now⟩)

/-- `server/src/routes/chat.py` chat_history: server-cache read; `None` becomes
the 400 "Session expired or does not exist", anything else is returned verbatim. -/
def chat_history_route (store : String → Option Chat) (token : String) :
    Except HTTPError Chat :=
  match (ServerCache.get_chat_history store token).2 with
  | none => Except.error ⟨400, Detail.str "Session expired or does not exist"⟩
  | some data => Except.ok data

/-- Role string sent to the provider: the enum's wire value. -/
def SourceEnum.toRole : SourceEnum → String
  | .user => "user"
  | .assistant => "assistant"

/-- `worker/src/model/gpt.py` map_to_api_messages: `{"role": source, "content": msg}`. -/
def GPT.map_to_api_messages (m : Message) : String × String :=
  (m.source.toRole, m.msg)

/-- `worker/src/model/gpt.py` GPT.query: map every input message to its
role/content pair, issue one provider call (the black-box chat-completion
request, modelled by `provider`), and wrap the returned text as a fresh
assistant Message.  Provider errors propagate unchanged. -/
def GPT.query (provider : List (String × String) → Except String String)
    (freshId freshTs : String) (messages : List Message) : Except String Message :=
  match provider (messages.map GPT.map_to_api_messages) with
  | Except.error e => Except.error e
  | Except.ok content => Except.ok ⟨freshId, content, freshTs, SourceEnum.assistant⟩

/-- The fresh ids and timestamps drawn during one `process_message` call:
for the new user Message and for the assistant Message built by GPT.query. -/
structure WorkerIds where
  userId : String
  userTs : String
  gptId : String
  gptTs : String
deriving DecidableEq, Repr

/-- The `new_message` built at the top of `worker/main.py` process_message. -/
def Message.newUser (ids : WorkerIds) (text : String) : Message :=
  ⟨ids.userId, text, ids.userTs, SourceEnum.user⟩

/-- How one `process_message` call ended when it did not raise. -/
inductive ProcOutcome
  | droppedNotFound
  | completed
deriving DecidableEq, Repr

/-- `worker/main.py` process_message: build the user message, fetch the
bounded history (limit 10); if the session is gone, log and return (silent
drop).  Otherwise call the model on history plus the new message; on success
XADD the single-field `message` response entry to `response_channel_<token>`,
EXPIRE that stream in 3600 seconds, and JSON.ARRAPPEND the user and assistant
messages to the session.  A provider error propagates as `Except.error`,
carrying the effects already performed. -/
def process_message (store : String → Option Chat)
    (provider : List (String × String) → Except String String)
    (ids : WorkerIds) (text token : String) :
    List RedisOp × Except String ProcOutcome :=
  match Cache.get_chat_history store token 10 with
  | (getOps, none) => (getOps, Except.ok ProcOutcome.droppedNotFound)
  | (getOps, some chat_history) =>
    match GPT.query provider ids.gptId ids.gptTs
        (chat_history.messages ++ [Message.newUser ids text]) with
    | Except.error e => (getOps, Except.error e)
    | Except.ok gpt_message =>
      (getOps ++
        [RedisOp.xadd ("response_channel_" ++ token)
           [("message", gpt_message.msg)],
         RedisOp.expire ("response_channel_" ++ token) 3600] ++
        Cache.add_messages_to_cache token [Message.newUser ids text, gpt_message],
       Except.ok ProcOutcome.completed)

/-- An exception escaping one iteration of the worker's inner for-loop. -/
inductive WorkerError
  | indexError
  | domainError (e : String)
deriving DecidableEq, Repr

/-- The body of the worker's per-entry loop in `worker/main.py` main: take the
first (key, value) pair of the entry's field mapping as (token, text) — the
list comprehension indexes `[0]`, so an empty mapping raises IndexError and
further pairs are ignored — run process_message, and only after it returns
XDEL the entry from `message_channel`.  An exception leaves the performed
effects in place and skips the delete. -/
def handle_entry (store : String → Option Chat)
    (provider : List (String × String) → Except String String)
    (ids : WorkerIds) (message_id : String)
    (message_data : List (String × String)) :
    List RedisOp × Option WorkerError :=
  match message_data with
  | [] => ([], some WorkerError.indexError)
  | (token, text) :: _ =>
    match process_message store provider ids text token with
    | (ops, Except.error e) => (ops, some (WorkerError.domainError e))
    | (ops, Except.ok _) =>
      (ops ++ [RedisOp.xdel "message_channel" message_id], none)

/-- The worker's consume loop over a finite script of request entries
(entry id paired with its field mapping): entries are handled in order and the
first uncaught exception stops the loop. -/
def worker_loop (store : String → Option Chat)
    (provider : List (String × String) → Except String String)
    (ids : Nat → WorkerIds) :
    List (String × List (String × String)) → Nat →
      List RedisOp × Option WorkerError
  | [], _ => ([], none)
  | (mid, fields) :: rest, i =>
    match handle_entry store provider (ids i) mid fields with
    | (ops, some e) => (ops, some e)
    | (ops, none) =>
      match worker_loop store provider ids rest (i + 1) with
      | (ops2, err2) => (ops ++ ops2, err2)

/-- Outcome of `worker/main.py` main around the consume loop: the effect
trace, whether an exception escaped the while-loop into the except-block, and
whether the finally-block cleanup (closing the connection) ran. -/
structure MainOutcome where
  ops : List RedisOp
  crashed : Bool
  cleanupRan : Bool
deriving DecidableEq, Repr

/-- `worker/main.py` main: try/except/finally around the consume loop — an
escaping exception is logged (crashed), and the finally-block always runs. -/
def worker_main (store : String → Option Chat)
    (provider : List (String × String) → Except String String)
    (ids : Nat → WorkerIds)
    (entries : List (String × List (String × String))) : MainOutcome :=
  match worker_loop store provider ids entries 0 with
  | (ops, err) => ⟨ops, err.isSome, true⟩

/-- The for-loop over consumed response entries inside
`server/src/routes/chat.py` websocket_endpoint: decode each entry's
`b'message'` field, send it to the client, and XDEL the entry.  A missing
`message` key raises (KeyError), stopping before that entry's send and delete.
Returns (effect trace, texts sent, escaped exception). -/
def ws_consume (response_channel : String) :
    List (String × List (String × String)) →
      List RedisOp × List String × Option String
  | [] => ([], [], none)
  | (mid, fields) :: rest =>
    match fields.lookup "message" with
    | none => ([], [], some "KeyError")
    | some txt =>
      match ws_consume response_channel rest with
      | (ops, sent, err) =>
        (RedisOp.xdel response_channel mid :: ops, txt :: sent, err)

/-- One iteration of websocket_endpoint's relay loop for a received frame
`data`: XADD the single-field request entry `{token: data}` to
`message_channel`, then consume the blocking read's response entries. -/
def websocket_relay_iteration (token data : String)
    (responses : List (String × List (String × String))) :
    List RedisOp × List String × Option String :=
  match ws_consume ("response_channel_" ++ token) responses with
  | (ops, sent, err) =>
    (RedisOp.xadd "message_channel" [(token, data)] :: ops, sent, err)

structure WSException where
  code : Nat
  reason : String
deriving DecidableEq, Repr

/-- `server/src/socket/utils.py` get_token: a missing or empty query token is
rejected with close code 1008 and reason "Token is required"; a token whose
key does not exist is rejected with 1008 and reason "Session not authenticated
or expired token"; otherwise the token is returned. -/
def get_token (token : Option String) (store : String → Option Chat) :
    Except WSException String :=
  match token with
  | none => Except.error ⟨1008, "Token is required"⟩
  | some t =>
    if t = "" then Except.error ⟨1008, "Token is required"⟩
    else if (store t).isSome then Except.ok t
    else Except.error ⟨1008, "Session not authenticated or expired token"⟩

/-! ### Concrete fixtures used by counterexamples and witnesses -/

def msgA : Message := ⟨"id0", "hello", "t0", SourceEnum.user⟩

def msgB : Message := ⟨"id1", "hi, how can I help?", "t1", SourceEnum.assistant⟩

def msgC : Message := ⟨"id2", "what is Lean?", "t2", SourceEnum.user⟩

def chatABC : Chat := ⟨"tok", [msgA, msgB, msgC], "Alice", "s0"⟩

def storeABC : String → Option Chat :=
  fun t => if t = "tok" then some chatABC else none

def emptyStore : String → Option Chat := fun _ => none

def okProvider : List (String × String) → Except String String :=
  fun _ => Except.ok "canned reply"

def failProvider : List (String × String) → Except String String :=
  fun _ => Except.error "provider down"

def ids0 : WorkerIds := ⟨"uid", "uts", "gid", "gts"⟩

def idsSeq : Nat → WorkerIds := fun _ => ids0

/-! ### Slicing lemmas -/

theorem pySliceFrom_zero (l : List α) : pySliceFrom l 0 = l := by
  simp [pySliceFrom]

theorem pySliceFrom_nonneg (l : List α) (s : Int) (h : 0 ≤ s) :
    pySliceFrom l s = l.drop s.toNat := by
  unfold pySliceFrom
  simp only [if_neg (not_lt.mpr h)]
  rcases le_or_lt s (l.length : Int) with hle | hlt
  · congr 1
    omega
  · have h1 : (min s (l.length : Int)).toNat = l.length := by omega
    have h2 : l.length ≤ s.toNat := by omega
    rw [h1, List.drop_length, List.drop_eq_nil_of_le h2]

theorem pySliceFrom_neg (l : List α) (s : Int) (h : s < 0) :
    pySliceFrom l s = l.drop ((l.length : Int) + s).toNat := by
  unfold pySliceFrom
  simp only [if_pos h]
  congr 1
  omega

theorem pySliceFrom_neg_of_pos (l : List α) (limit : Int) (h : 0 < limit) :
    pySliceFrom l (-limit) = l.drop (l.length - limit.toNat) := by
  rw [pySliceFrom_neg l (-limit) (by omega)]
  congr 1
  omega

/-! ### C2: zero and negative limits in the bounded history read -/

/-- C2 counterexample: with the stored 3-message session and limit −1, the
bounded read keeps `messages[1:]`, i.e. the two messages after dropping the
first one — not the trailing one message the claim predicts. -/
theorem C2_counterexample :
    (Cache.get_chat_history storeABC "tok" (-1)).2 =
      some { chatABC with messages := [msgB, msgC] } ∧
    (Cache.get_chat_history storeABC "tok" (-1)).2 ≠
      some { chatABC with messages := [msgC] } := by
  constructor
  · rfl
  · decide

/-- C2 (amended): with limit 0 the bounded read returns the whole stored
document; with a negative limit it returns the document with the first
`|limit|` messages removed (so the trailing `len − |limit|` messages, empty
when `|limit| ≥ len`), not the trailing `|limit|` messages. -/
theorem C2_zero_and_negative_limit (store : String → Option Chat)
    (token : String) (chat : Chat) (limit : Int) (h : store token = some chat) :
    (limit = 0 → (Cache.get_chat_history store token limit).2 = some chat) ∧
    (limit < 0 → (Cache.get_chat_history store token limit).2 =
       some { chat with messages := chat.messages.drop (-limit).toNat }) := by
  constructor
  · rintro rfl
    simp [Cache.get_chat_history, h, pySliceFrom_zero]
  · intro hneg
    have h0 : (0 : Int) ≤ -limit := by omega
    simp [Cache.get_chat_history, h, pySliceFrom_nonneg _ _ h0]

/-- Witness for C2's amended theorem at the concrete store. -/
theorem C2_zero_and_negative_limit_witness :
    (Cache.get_chat_history storeABC "tok" 0).2 = some chatABC ∧
    (Cache.get_chat_history storeABC "tok" (-1)).2 =
      some { chatABC with messages := chatABC.messages.drop 1 } :=
  ⟨(C2_zero_and_negative_limit storeABC "tok" chatABC 0 (by decide)).1 rfl,
   (C2_zero_and_negative_limit storeABC "tok" chatABC (-1) (by decide)).2
     (by decide)⟩

/-! ### C5: positive limits in the bounded history read -/

/-- C5: for a stored session of `count` messages, a limit ≥ count returns the
whole document unchanged, and any positive limit returns exactly the last
`min(limit, count)` messages — for 0 < limit < count, the last `limit`
messages in their original order. -/
theorem C5_bounded_read (store : String → Option Chat) (token : String)
    (chat : Chat) (limit : Int) (h : store token = some chat) :
    ((chat.messages.length : Int) ≤ limit →
       (Cache.get_chat_history store token limit).2 = some chat) ∧
    (0 < limit →
       (Cache.get_chat_history store token limit).2 =
         some { chat with
                messages :=
                  chat.messages.drop (chat.messages.length - limit.toNat) }) := by
    constructor
    · intro hge
      have hmsg : pySliceFrom chat.messages (-limit) = chat.messages := by
        rcases eq_or_lt_of_le (le_trans (by omega : (0:Int) ≤ chat.messages.length) hge)
          with h0 | h0
        · have hlen : chat.messages.length = 0 := by omega
          have hnil : chat.messages = [] := List.length_eq_zero.mp hlen
          simp [hnil, pySliceFrom]
        · rw [pySliceFrom_neg chat.messages (-limit) (by omega)]
          have hz : ((chat.messages.length : Int) + -limit).toNat = 0 := by omega
          rw [hz, List.drop_zero]
      simp [Cache.get_chat_history, h, hmsg]
    · intro hpos
      simp [Cache.get_chat_history, h, pySliceFrom_neg_of_pos _ _ hpos]

/-- Witness for C5 at the concrete store: limit 5 ≥ 3 returns the whole
document; limit 2 returns the last two messages. -/
theorem C5_bounded_read_witness :
    (Cache.get_chat_history storeABC "tok" 5).2 = some chatABC ∧
    (Cache.get_chat_history storeABC "tok" 2).2 =
      some { chatABC with
             messages := chatABC.messages.drop (chatABC.messages.length - 2) } :=
  ⟨(C5_bounded_read storeABC "tok" chatABC 5 (by decide)).1 (by decide),
   (C5_bounded_read storeABC "tok" chatABC 2 (by decide)).2 (by decide)⟩

/-! ### C3: silent drop on a missing or expired session -/

/-- C3: when the token has no stored session, process_message performs only the
history read, returns normally (`Except.ok` with the dropped outcome), and its
trace contains no response publish and no history append. -/
theorem C3_silent_drop (store : String → Option Chat)
    (provider : List (String × String) → Except String String)
    (ids : WorkerIds) (text token : String) (h : store token = none) :
    process_message store provider ids text token =
      ([RedisOp.jsonGet token], Except.ok ProcOutcome.droppedNotFound) ∧
    (∀ op ∈ (process_message store provider ids text token).1,
       op.isXadd = false ∧ op.isArrAppend = false) := by
  have heq : process_message store provider ids text token =
      ([RedisOp.jsonGet token], Except.ok ProcOutcome.droppedNotFound) := by
    simp [process_message, Cache.get_chat_history, h]
  refine ⟨heq, ?_⟩
  rw [heq]
  intro op hop
  simp only [List.mem_singleton] at hop
  subst hop
  exact ⟨rfl, rfl⟩

/-- Witness for C3 at the empty store. -/
theorem C3_silent_drop_witness :
    process_message emptyStore okProvider ids0 "hi" "tok" =
      ([RedisOp.jsonGet "tok"], Except.ok ProcOutcome.droppedNotFound) :=
  (C3_silent_drop emptyStore okProvider ids0 "hi" "tok" rfl).1

/-! ### C4: the success path of process_message -/

/-- C4: when the session exists and the provider call on the bounded context
succeeds with reply `r`, process_message emits exactly, in order: the history
read, one XADD of the single-field `message` entry carrying `r` to
`response_channel_<token>`, an EXPIRE of that stream at 3600 seconds, and one
append of exactly [user message with the request text, assistant message with
`r`]; in particular the trace holds exactly one publish. -/
theorem C4_success (store : String → Option Chat)
    (provider : List (String × String) → Except String String)
    (ids : WorkerIds) (text token : String) (chat : Chat) (r : String)
    (h1 : store token = some chat)
    (h2 : provider
        ((pySliceFrom chat.messages (-10) ++ [Message.newUser ids text]).map
          GPT.map_to_api_messages) = Except.ok r) :
    process_message store provider ids text token =
      ([RedisOp.jsonGet token,
        RedisOp.xadd ("response_channel_" ++ token) [("message", r)],
        RedisOp.expire ("response_channel_" ++ token) 3600,
        RedisOp.arrAppend token
          [Message.newUser ids text,
           ⟨ids.gptId, r, ids.gptTs, SourceEnum.assistant⟩]],
       Except.ok ProcOutcome.completed) ∧
    (process_message store provider ids text token).1.countP
      (fun op => op.isXadd) = 1 := by
  have heq : process_message store provider ids text token =
      ([RedisOp.jsonGet token,
        RedisOp.xadd ("response_channel_" ++ token) [("message", r)],
        RedisOp.expire ("response_channel_" ++ token) 3600,
        RedisOp.arrAppend token
          [Message.newUser ids text,
           ⟨ids.gptId, r, ids.gptTs, SourceEnum.assistant⟩]],
       Except.ok ProcOutcome.completed) := by
    have h2x : provider
        (List.map GPT.map_to_api_messages (pySliceFrom chat.messages (-10)) ++
          [GPT.map_to_api_messages (Message.newUser ids text)]) = Except.ok r := by
      simpa using h2
    simp [process_message, Cache.get_chat_history, h1, GPT.query, h2x,
      Cache.add_messages_to_cache]
  refine ⟨heq, ?_⟩
  rw [heq]
  rfl

/-- Witness for C4 at the concrete store and canned provider. -/
theorem C4_success_witness :
    process_message storeABC okProvider ids0 "ping" "tok" =
      ([RedisOp.jsonGet "tok",
        RedisOp.xadd ("response_channel_" ++ "tok")
          [("message", "canned reply")],
        RedisOp.expire ("response_channel_" ++ "tok") 3600,
        RedisOp.arrAppend "tok"
          [Message.newUser ids0 "ping",
           ⟨ids0.gptId, "canned reply", ids0.gptTs, SourceEnum.assistant⟩]],
       Except.ok ProcOutcome.completed) :=
  (C4_success storeABC okProvider ids0 "ping" "tok" chatABC "canned reply"
    (by decide) rfl).1

/-! ### C6: session TTL is set once, at issuance -/

/-- C6: token issuance emits exactly one expiry op (3600 s on the fresh token's
key), while the history append and both history reads emit none. -/
theorem C6_ttl_set_once (name freshToken now : String) (h : name ≠ "")
    (token : String) (msgs : List Message) (store : String → Option Chat)
    (limit : Int) :
    (∃ ops chat, token_generator name freshToken now = Except.ok (ops, chat) ∧
       ops.filter (fun op => op.isExpire) = [RedisOp.expire freshToken 3600]) ∧
    (Cache.add_messages_to_cache token msgs).filter
      (fun op => op.isExpire) = [] ∧
    (Cache.get_chat_history store token limit).1.filter
      (fun op => op.isExpire) = [] ∧
    (ServerCache.get_chat_history store token).1.filter
      (fun op => op.isExpire) = [] := by
  refine ⟨⟨[RedisOp.jsonSet freshToken ⟨freshToken, [], name, now⟩,
            RedisOp.expire freshToken 3600],
           ⟨freshToken, [], name, now⟩, ?_, rfl⟩, rfl, rfl, rfl⟩
  unfold token_generator
  rw [if_neg h]

/-- Witness for C6 at a concrete non-empty name. -/
theorem C6_ttl_set_once_witness :
    ∃ ops chat, token_generator "Alice" "tok" "now" = Except.ok (ops, chat) ∧
      ops.filter (fun op => op.isExpire) = [RedisOp.expire "tok" 3600] :=
  (C6_ttl_set_once "Alice" "tok" "now" (by decide) "tok" [] emptyStore 0).1

/-! ### C7: POST /token -/

/-- C7: an empty name yields the 400 with `{loc: "name", msg: "Enter a valid
name"}`; a non-empty name stores the session document (empty message list)
under the fresh token, sets its 3600 s expiry, and returns the document. -/
theorem C7_token_route (name freshToken now : String) :
    (name = "" → token_generator name freshToken now =
       Except.error ⟨400, Detail.obj "name" "Enter a valid name"⟩) ∧
    (name ≠ "" → token_generator name freshToken now =
       Except.ok ([RedisOp.jsonSet freshToken ⟨freshToken, [], name, now⟩,
                   RedisOp.expire freshToken 3600],
                  ⟨freshToken, [], name, now⟩)) := by
  constructor
  · rintro rfl
    rfl
  · intro h
    unfold token_generator
    rw [if_neg h]

/-- Witness for C7 at an empty and a non-empty name. -/
theorem C7_token_route_witness :
    token_generator "" "tok" "now" =
      Except.error ⟨400, Detail.obj "name" "Enter a valid name"⟩ ∧
    token_generator "Alice" "tok" "now" =
      Except.ok ([RedisOp.jsonSet "tok" ⟨"tok", [], "Alice", "now"⟩,
                  RedisOp.expire "tok" 3600],
                 ⟨"tok", [], "Alice", "now"⟩) :=
  ⟨(C7_token_route "" "tok" "now").1 rfl,
   (C7_token_route "Alice" "tok" "now").2 (by decide)⟩

/-! ### C8: GET /chat_history -/

/-- C8: an absent or expired session yields exactly the 400 detail "Session
expired or does not exist"; an existing session is returned verbatim. -/
theorem C8_chat_history_route (store : String → Option Chat) (token : String) :
    (store token = none → chat_history_route store token =
       Except.error ⟨400, Detail.str "Session expired or does not exist"⟩) ∧
    (∀ chat, store token = some chat →
       chat_history_route store token = Except.ok chat) := by
  constructor
  · intro h
    simp [chat_history_route, ServerCache.get_chat_history, h]
  · intro chat h
    simp [chat_history_route, ServerCache.get_chat_history, h]

/-- Witness for C8 at the empty and the concrete store. -/
theorem C8_chat_history_route_witness :
    chat_history_route emptyStore "tok" =
      Except.error ⟨400, Detail.str "Session expired or does not exist"⟩ ∧
    chat_history_route storeABC "tok" = Except.ok chatABC :=
  ⟨(C8_chat_history_route emptyStore "tok").1 rfl,
   (C8_chat_history_route storeABC "tok").2 chatABC (by decide)⟩

/-! ### C9: WebSocket handshake authentication -/

/-- C9: the handshake is rejected with 1008 "Token is required" exactly when
the query token is missing or empty, with 1008 "Session not authenticated or
expired token" exactly when the token is non-empty but no session key exists,
and in every other case the token is returned. -/
theorem C9_ws_auth (token : Option String) (store : String → Option Chat) :
    (get_token token store = Except.error ⟨1008, "Token is required"⟩ ↔
       token = none ∨ token = some "") ∧
    (get_token token store =
        Except.error ⟨1008, "Session not authenticated or expired token"⟩ ↔
       ∃ t, token = some t ∧ t ≠ "" ∧ store t = none) ∧
    (∀ t, token = some t → t ≠ "" → (store t).isSome →
       get_token token store = Except.ok t) := by
  rcases token with _ | t
  · refine ⟨by simp [get_token], by simp [get_token], ?_⟩
    intro t ht
    exact absurd ht (by simp)
  · by_cases ht : t = ""
    · subst ht
      refine ⟨by simp [get_token], ?_, ?_⟩
      · simp only [get_token, if_pos rfl]
        constructor
        · intro h
          exact absurd h (by simp)
        · rintro ⟨t2, ht2, hne, _⟩
          simp only [Option.some.injEq] at ht2
          exact absurd ht2.symm hne
      · intro t2 ht2 hne
        simp only [Option.some.injEq] at ht2
        exact absurd ht2.symm hne
    · cases hs : store t with
      | none =>
        refine ⟨?_, ?_, ?_⟩
        · simp only [get_token, if_neg ht, hs, Option.isSome_none,
            Bool.false_eq_true, if_false]
          constructor
          · intro h
            exact absurd h (by simp)
          · rintro (h | h)
            · exact absurd h (by simp)
            · simp only [Option.some.injEq] at h
              exact absurd h ht
        · simp only [get_token, if_neg ht, hs, Option.isSome_none,
            Bool.false_eq_true, if_false]
          simp only [true_iff]
          exact ⟨t, rfl, ht, hs⟩
        · intro t2 ht2 hne hsome
          simp only [Option.some.injEq] at ht2
          subst ht2
          rw [hs] at hsome
          exact absurd hsome (by simp)
      | some chat =>
        refine ⟨?_, ?_, ?_⟩
        · simp only [get_token, if_neg ht, hs, Option.isSome_some, if_true]
          constructor
          · intro h
            exact absurd h (by simp)
          · rintro (h | h)
            · exact absurd h (by simp)
            · simp only [Option.some.injEq] at h
              exact absurd h ht
        · simp only [get_token, if_neg ht, hs, Option.isSome_some, if_true]
          constructor
          · intro h
            exact absurd h (by simp)
          · rintro ⟨t2, ht2, hne, hnone⟩
            simp only [Option.some.injEq] at ht2
            subst ht2
            rw [hs] at hnone
            exact absurd hnone (by simp)
        · intro t2 ht2 hne hsome
          simp only [Option.some.injEq] at ht2
          subst ht2
          simp [get_token, if_neg ht, hs]

/-- Witness for C9: a known non-empty token passes and is returned. -/
theorem C9_ws_auth_witness : get_token (some "tok") storeABC = Except.ok "tok" :=
  (C9_ws_auth (some "tok") storeABC).2.2 "tok" rfl (by decide) (by decide)

/-! ### Helper lemmas about process_message and the relay loops -/

theorem process_message_none (store : String → Option Chat)
    (provider : List (String × String) → Except String String)
    (ids : WorkerIds) (text token : String) (h : store token = none) :
    process_message store provider ids text token =
      ([RedisOp.jsonGet token], Except.ok ProcOutcome.droppedNotFound) := by
  simp [process_message, Cache.get_chat_history, h]

theorem process_message_cases (store : String → Option Chat)
    (provider : List (String × String) → Except String String)
    (ids : WorkerIds) (text token : String) :
    process_message store provider ids text token =
      ([RedisOp.jsonGet token], Except.ok ProcOutcome.droppedNotFound) ∨
    (∃ e, process_message store provider ids text token =
      ([RedisOp.jsonGet token], Except.error e)) ∨
    (∃ r, process_message store provider ids text token =
      ([RedisOp.jsonGet token,
        RedisOp.xadd ("response_channel_" ++ token) [("message", r)],
        RedisOp.expire ("response_channel_" ++ token) 3600,
        RedisOp.arrAppend token
          [Message.newUser ids text,
           ⟨ids.gptId, r, ids.gptTs, SourceEnum.assistant⟩]],
       Except.ok ProcOutcome.completed)) := by
  cases hs : store token with
  | none => exact Or.inl (process_message_none store provider ids text token hs)
  | some chat =>
    cases hp : provider
        (List.map GPT.map_to_api_messages (pySliceFrom chat.messages (-10)) ++
          [GPT.map_to_api_messages (Message.newUser ids text)]) with
    | error e =>
      refine Or.inr (Or.inl ⟨e, ?_⟩)
      simp [process_message, Cache.get_chat_history, GPT.query, hs, hp]
    | ok r =>
      refine Or.inr (Or.inr ⟨r, ?_⟩)
      simp [process_message, Cache.get_chat_history, GPT.query, hs, hp,
        Cache.add_messages_to_cache]

theorem process_message_no_xdel (store : String → Option Chat)
    (provider : List (String × String) → Except String String)
    (ids : WorkerIds) (text token : String) :
    ∀ op ∈ (process_message store provider ids text token).1,
      op.isXdel = false := by
  rcases process_message_cases store provider ids text token with
    h | ⟨e, h⟩ | ⟨r, h⟩ <;> rw [h] <;> intro op hop <;>
    simp only [List.mem_cons, List.mem_singleton, List.not_mem_nil,
      or_false] at hop
  · subst hop; rfl
  · subst hop; rfl
  · rcases hop with rfl | rfl | rfl | rfl <;> rfl

theorem ws_consume_deletes (rc : String)
    (responses : List (String × List (String × String)))
    (h : (ws_consume rc responses).2.2 = none) :
    ∀ mid fields, (mid, fields) ∈ responses →
      RedisOp.xdel rc mid ∈ (ws_consume rc responses).1 := by
  induction responses with
  | nil =>
    intro mid fields hmem
    exact absurd hmem (List.not_mem_nil _)
  | cons hd tl ih =>
    rcases hd with ⟨mid0, fields0⟩
    cases hl : fields0.lookup "message" with
    | none =>
      rw [ws_consume, hl] at h
      exact absurd h (by simp)
    | some txt =>
      rcases hwt : ws_consume rc tl with ⟨ops, sent, err⟩
      have hred : ws_consume rc ((mid0, fields0) :: tl) =
          (RedisOp.xdel rc mid0 :: ops, txt :: sent, err) := by
        rw [ws_consume, hl, hwt]
      rw [hred] at h ⊢
      intro mid fields hmem
      rcases List.mem_cons.mp hmem with heq | hmem2
      · rw [Prod.mk.injEq] at heq
        rw [heq.1]
        exact List.mem_cons_self _ _
      · have := ih (by rw [hwt]; exact h) mid fields hmem2
        rw [hwt] at this
        exact List.mem_cons_of_mem _ this

/-! ### C1: delete-after-processing discipline -/

/-- C1 counterexample: with the session present but the provider raising, the
worker's consume loop performs no XDEL at all and the exception escapes the
loop (crashed); conversely, in the session-NotFound silent-drop case the
request entry IS deleted.  Both refute the claim's delete discipline. -/
theorem C1_counterexample :
    ((worker_main storeABC failProvider idsSeq
        [("1-0", [("tok", "hi")])]).ops.countP (fun op => op.isXdel) = 0 ∧
     (worker_main storeABC failProvider idsSeq
        [("1-0", [("tok", "hi")])]).crashed = true) ∧
    RedisOp.xdel "message_channel" "1-0" ∈
      (worker_main emptyStore okProvider idsSeq
        [("1-0", [("tok", "hi")])]).ops := by
  refine ⟨⟨rfl, rfl⟩, ?_⟩
  simp [worker_main, worker_loop, handle_entry,
    process_message_none emptyStore okProvider (idsSeq 0) "hi" "tok" rfl]

/-- C1 (amended): the worker deletes the request entry from the shared stream
exactly when process_message returns without raising — which includes the
session-NotFound silent-drop case — and performs no delete when domain
processing raises (the exception then escapes the loop); the WebSocket relay
deletes every consumed response entry once its text is delivered. -/
theorem C1_delete_discipline (store : String → Option Chat)
    (provider : List (String × String) → Except String String)
    (ids : WorkerIds) (mid tok text : String)
    (rest : List (String × String)) (wtoken data : String)
    (responses : List (String × List (String × String))) :
    ((handle_entry store provider ids mid ((tok, text) :: rest)).2 = none ↔
       RedisOp.xdel "message_channel" mid ∈
         (handle_entry store provider ids mid ((tok, text) :: rest)).1) ∧
    (store tok = none →
       (handle_entry store provider ids mid ((tok, text) :: rest)).2 = none) ∧
    ((websocket_relay_iteration wtoken data responses).2.2 = none →
       ∀ mid2 fields2, (mid2, fields2) ∈ responses →
         RedisOp.xdel ("response_channel_" ++ wtoken) mid2 ∈
           (websocket_relay_iteration wtoken data responses).1) := by
  have hx := process_message_no_xdel store provider ids text tok
  refine ⟨?_, ?_, ?_⟩
  · rcases hpm : process_message store provider ids text tok with ⟨ops, res⟩
    rw [hpm] at hx
    cases res with
    | error e =>
      have hhe : handle_entry store provider ids mid ((tok, text) :: rest) =
          (ops, some (WorkerError.domainError e)) := by
        rw [handle_entry, hpm]
      rw [hhe]
      constructor
      · intro h
        exact absurd h (by simp)
      · intro hmem
        have := hx _ hmem
        simp [RedisOp.isXdel] at this
    | ok o =>
      have hhe : handle_entry store provider ids mid ((tok, text) :: rest) =
          (ops ++ [RedisOp.xdel "message_channel" mid], none) := by
        rw [handle_entry, hpm]
      rw [hhe]
      simp
  · intro h
    rw [handle_entry, process_message_none store provider ids text tok h]
  · rcases hwc : ws_consume ("response_channel_" ++ wtoken) responses with
      ⟨ops, sent, err⟩
    have hred : websocket_relay_iteration wtoken data responses =
        (RedisOp.xadd "message_channel" [(wtoken, data)] :: ops, sent, err) := by
      rw [websocket_relay_iteration, hwc]
    rw [hred]
    intro herr mid2 fields2 hmem
    have := ws_consume_deletes ("response_channel_" ++ wtoken) responses
      (by rw [hwc]; exact herr) mid2 fields2 hmem
    rw [hwc] at this
    exact List.mem_cons_of_mem _ this

/-- Witness for C1's amended theorem: in the silent-drop case the entry is
deleted and no exception escapes. -/
theorem C1_delete_discipline_witness :
    (handle_entry emptyStore okProvider ids0 "1-0" [("tok", "hi")]).2 = none ∧
    RedisOp.xdel "message_channel" "1-0" ∈
      (handle_entry emptyStore okProvider ids0 "1-0" [("tok", "hi")]).1 := by
  have h := C1_delete_discipline emptyStore okProvider ids0 "1-0" "tok" "hi"
    [] "tok" "hello" []
  have hnone := h.2.1 rfl
  exact ⟨hnone, h.1.mp hnone⟩

/-! ### C10: entry extraction and the empty-mapping IndexError -/

/-- C10: only the first field pair of a request entry is used — any further
pairs are ignored, the handling being identical to the single-pair entry —
and an entry with an empty field mapping raises IndexError, which is not
handled per-entry: the consume loop stops (no further entries are processed,
no effects are emitted), the exception is caught by the outer handler
(crashed) and the cleanup step still runs. -/
theorem C10_first_pair_and_index_error (store : String → Option Chat)
    (provider : List (String × String) → Except String String)
    (ids : Nat → WorkerIds) (mid k v : String)
    (rest : List (String × String))
    (entries : List (String × List (String × String))) :
    handle_entry store provider (ids 0) mid ((k, v) :: rest) =
      handle_entry store provider (ids 0) mid [(k, v)] ∧
    worker_main store provider ids ((mid, []) :: entries) =
      ⟨[], true, true⟩ := by
  exact ⟨rfl, rfl⟩
